import Mathlib

/-!
Persistence layer of green-ecolution-backend.

A shallow embedding of `internal/storage/postgres` (the `store` package and the
sensor and tree-cluster repositories) together with the properties its
specification states about them.

Conventions of the embedding:

* a Go `error` is an `Option GoError` (`none` is `nil`);
* a nilable pointer `*T` is an `Option T`;
* `int32` identifiers are `Int` (no arithmetic is performed on them);
* `float64` values are only copied, never computed with, and are carried as
  their IEEE-754 bit pattern;
* everything outside the process (connection, database) is an abstract state
  `σ`; every call that leaves the process threads it and is recorded in a call
  log (`World.calls`), so that "is / is not invoked" can be stated;
* logging (`slog`) is not modelled.
-/

namespace GreenEcolution

/-! ## Go values -/

/-- A non-nil Go `error` value. `sentinel` is a package-level error variable
(compared by identity, here by its qualified name), `dynamic` an error value
built at run time, `wrapped` the result of `errors.Wrap`. -/
inductive GoError where
  | sentinel (name : String) : GoError
  | dynamic (msg : String) : GoError
  | wrapped (cause : GoError) (msg : String) : GoError
  deriving DecidableEq, Repr

/-- A Go run-time panic. -/
inductive Panic where
  | nilPointerDereference : Panic
  deriving DecidableEq, Repr

/-- A `float64`, carried as its IEEE-754 binary64 bit pattern. -/
structure Float64 where
  bits : Nat
  deriving DecidableEq, Repr

namespace Float64

/-- The literal `0`. -/
def zero : Float64 := ⟨0⟩

/-- The literal `0.5` (sign 0, biased exponent 1022, mantissa 0). -/
def half : Float64 := ⟨0x3FE0000000000000⟩

end Float64

namespace time

/-- A `time.Time`, as nanoseconds since the zero `Time` (January 1 of year 1,
00:00 UTC), so that the zero value of the Go type is `⟨0⟩`. -/
structure Time where
  nanos : Int
  deriving DecidableEq, Repr

end time

namespace errors

/-- `errors.Wrap(err, message)` of github.com/pkg/errors for a non-nil `err`.
The library stacks two layers on `err` (a message layer and a stack layer);
they are kept as the one node `wrapped`, which carries the message and leads to
`err`. `errors.Is` walks the same chain down to `err` either way. -/
def Wrap (err : GoError) (message : String) : GoError :=
  GoError.wrapped err message

/-- `errors.Is(err, target)`: `err` or an error in its chain is `target`. -/
def Is : GoError → GoError → Bool
  | GoError.wrapped cause msg, target =>
    decide (GoError.wrapped cause msg = target) || Is cause target
  | err, target => decide (err = target)

end errors

namespace pgx

def ErrNoRows : GoError := GoError.sentinel "pgx.ErrNoRows"

def ErrTooManyRows : GoError := GoError.sentinel "pgx.ErrTooManyRows"

def ErrTxClosed : GoError := GoError.sentinel "pgx.ErrTxClosed"

def ErrTxCommitRollback : GoError := GoError.sentinel "pgx.ErrTxCommitRollback"

/-- The `pgx.Tx` interface, as far as `WithTx` uses it: a value with the two
methods, each acting on the outside world. -/
structure Tx (σ : Type) where
  Rollback : σ → Option GoError × σ
  Commit : σ → Option GoError × σ

/-- The `*pgx.Conn`, as far as the store uses it. -/
structure Conn (σ : Type) where
  BeginTx : σ → Except GoError (Tx σ) × σ

end pgx

namespace sql

def ErrConnDone : GoError := GoError.sentinel "sql.ErrConnDone"

end sql

namespace storage

/-!
Modelled from the spec: the error variables of package `internal/storage`
are not among the sources; the taxonomy of the specification names them, and
each is a distinct package-level error value.
-/

def ErrImageNotFound : GoError := GoError.sentinel "storage.ErrImageNotFound"

def ErrSensorNotFound : GoError := GoError.sentinel "storage.ErrSensorNotFound"

def ErrFlowerbedNotFound : GoError := GoError.sentinel "storage.ErrFlowerbedNotFound"

def ErrTreeClusterNotFound : GoError := GoError.sentinel "storage.ErrTreeClusterNotFound"

def ErrEntityNotFound : GoError := GoError.sentinel "storage.ErrEntityNotFound"

def ErrToManyRows : GoError := GoError.sentinel "storage.ErrToManyRows"

def ErrTxClosed : GoError := GoError.sentinel "storage.ErrTxClosed"

def ErrTxCommitRollback : GoError := GoError.sentinel "storage.ErrTxCommitRollback"

def ErrConnectionClosed : GoError := GoError.sentinel "storage.ErrConnectionClosed"

end storage

namespace pgtype

/-- The `pgtype.Timestamp` of pgx, without its infinity modifier. -/
structure Timestamp where
  Time : time.Time
  Valid : Bool
  deriving DecidableEq, Repr

end pgtype

namespace entities

/-- Modelled from the spec: the declaration of `EntityFunc` is not among the
sources; a mutation function takes the entity by reference and modifies zero or
more of its fields, here a function from the entity to the mutated entity. -/
abbrev EntityFunc (T : Type) := T → T

/-- Modelled from the spec: the enumeration of watering states is not among the
sources; a string-valued enumeration whose unknown state is "unknown". -/
abbrev TreeClusterWateringStatus := String

def TreeClusterWateringStatusUnknown : TreeClusterWateringStatus := "unknown"

/-- Modelled from the spec: the enumeration of soil conditions is not among the
sources; a string-valued enumeration whose unknown state is "unknown". -/
abbrev TreeSoilCondition := String

def TreeSoilConditionUnknown : TreeSoilCondition := "unknown"

/-- Modelled from the spec: the enumeration of sensor states is not among the
sources. -/
abbrev SensorStatus := String

/-- Modelled from the spec: the declaration of `Region` is not among the
sources; the repository reads only its identifier. -/
structure Region where
  ID : Int
  Name : String
  deriving DecidableEq, Repr

/-- Modelled from the spec: the declaration of `Sensor` is not among the
sources; an identifier, timestamps and a status. -/
structure Sensor where
  ID : Int
  CreatedAt : time.Time
  UpdatedAt : time.Time
  Status : SensorStatus
  deriving DecidableEq, Repr

/-- Modelled from the spec: the declaration of `Image` is not among the
sources; its fields are those of the literal `ConvertNullableImage` builds. -/
structure Image where
  ID : Int
  CreatedAt : time.Time
  UpdatedAt : time.Time
  URL : String
  deriving DecidableEq, Repr

/-- The `Tree` of `internal/entities/tree.go`. Its back-references (cluster,
sensor) and its images are held by identifier: the tree does not own them. -/
structure Tree where
  ID : Int
  CreatedAt : time.Time
  UpdatedAt : time.Time
  TreeCluster : Option Int
  Sensor : Option Int
  Images : List Int
  Age : Int
  HeightAboveSeaLevel : Float64
  PlantingYear : Int
  Species : String
  Number : Int
  Latitude : Float64
  Longitude : Float64
  deriving DecidableEq, Repr

/-- Modelled from the spec: the declaration of `TreeCluster` is not among the
sources; its fields are those the repository reads and writes (identifier,
timestamps, optional region, address, description, moisture level, optional
position, watering status, soil condition, archived flag, optional last-watered
time, trees, name). -/
structure TreeCluster where
  ID : Int
  CreatedAt : time.Time
  UpdatedAt : time.Time
  WateringStatus : TreeClusterWateringStatus
  LastWatered : Option time.Time
  MoistureLevel : Float64
  Region : Option Region
  Address : String
  Description : String
  Archived : Bool
  Latitude : Option Float64
  Longitude : Option Float64
  Trees : List Tree
  SoilCondition : TreeSoilCondition
  Name : String
  deriving DecidableEq, Repr

end entities

namespace utils

/-- Modelled from the spec: `TimeToPgTimestamp` is not among the sources; a
time round-trips through a wall-clock value plus validity flag, an absent time
being the invalid timestamp. -/
def TimeToPgTimestamp (t : Option time.Time) : pgtype.Timestamp :=
  match t with
  | none => { Time := ⟨0⟩, Valid := false }
  | some v => { Time := v, Valid := true }

end utils

namespace sqlc

/-!
The package `_sqlc` is generated from the queries and is not among the
sources: its parameter structures are read off the literals the repositories
build, and its query methods are taken as a parameter (`Queries`).
-/

structure CreateTreeClusterParams where
  RegionID : Option Int
  Address : String
  Description : String
  MoistureLevel : Float64
  WateringStatus : String
  SoilCondition : String
  Name : String
  deriving DecidableEq, Repr

structure SetTreeClusterLocationParams where
  ID : Int
  Latitude : Option Float64
  Longitude : Option Float64
  deriving DecidableEq, Repr

structure UpdateTreeClusterParams where
  ID : Int
  RegionID : Option Int
  Address : String
  Description : String
  MoistureLevel : Float64
  WateringStatus : String
  SoilCondition : String
  LastWatered : pgtype.Timestamp
  Archived : Bool
  deriving DecidableEq, Repr

/-- A row of table `sensors`. -/
structure Sensor where
  ID : Int
  CreatedAt : pgtype.Timestamp
  UpdatedAt : pgtype.Timestamp
  Status : String
  deriving DecidableEq, Repr

/-- A row of table `images`. -/
structure Image where
  ID : Int
  CreatedAt : pgtype.Timestamp
  UpdatedAt : pgtype.Timestamp
  Url : String
  deriving DecidableEq, Repr

/-- The query methods of `*sqlc.Queries` the embedded code calls. Each acts on
the outside world `σ`. -/
structure Queries (σ : Type) where
  GetSensorByID : Int → σ → Except GoError Sensor × σ
  GetImageByID : Int → σ → Except GoError Image × σ
  CreateTreeCluster : CreateTreeClusterParams → σ → Except GoError Int × σ
  SetTreeClusterLocation : SetTreeClusterLocationParams → σ → Option GoError × σ
  UpdateTreeCluster : UpdateTreeClusterParams → σ → Option GoError × σ

end sqlc

namespace utils

def PgTimestampToTime (t : pgtype.Timestamp) : time.Time :=
  t.Time

def ConvertNullableImage (img : sqlc.Image) : Option entities.Image :=
  if img.ID = 0 then none
  else
    some
      { ID := img.ID
        CreatedAt := img.CreatedAt.Time
        UpdatedAt := img.UpdatedAt.Time
        URL := img.Url }

end utils

/-! ## The outside world and the call log -/

/-- A call that leaves the embedded code: a query of the executor, a method of
the connection or transaction, the function handed to `WithTx`, or the fetch by
identifier of the tree-cluster repository. -/
inductive Call where
  | BeginTx : Call
  | fn : Call
  | Rollback : Call
  | Commit : Call
  | GetSensorByID (id : Int) : Call
  | GetImageByID (id : Int) : Call
  | CreateTreeCluster (arg : sqlc.CreateTreeClusterParams) : Call
  | SetTreeClusterLocation (arg : sqlc.SetTreeClusterLocationParams) : Call
  | UpdateTreeCluster (arg : sqlc.UpdateTreeClusterParams) : Call
  | GetByID (id : Int) : Call
  deriving DecidableEq, Repr

/-- The outside world `ext` together with the log of the calls made so far,
oldest first. -/
structure World (σ : Type) where
  ext : σ
  calls : List Call

namespace World

/-- Make the call `c`: run `f` on the outside world and append `c` to the log. -/
def call {σ α : Type} (w : World σ) (c : Call) (f : σ → α × σ) : α × World σ :=
  ((f w.ext).1, { ext := (f w.ext).2, calls := w.calls ++ [c] })

/-- A world in which no call has been made yet. -/
def fresh {σ : Type} (ext : σ) : World σ := { ext := ext, calls := [] }

/-- The calls made between the world `before` and the later world `after`. -/
def since {σ : Type} (before after : World σ) : List Call :=
  after.calls.drop before.calls.length

end World

namespace store

abbrev EntityType := String

def Sensor : EntityType := "sensor"

def Image : EntityType := "image"

def Flowerbed : EntityType := "flowerbed"

def TreeCluster : EntityType := "treecluster"

def Tree : EntityType := "tree"

def Vehicle : EntityType := "vehicle"

structure Store (σ : Type) where
  Queries : sqlc.Queries σ
  db : pgx.Conn σ
  entityType : EntityType

/-- `NewStore(db)`; the generated `sqlc.New(db)` is the parameter `queries`. The
entity tag is left at its zero value, the empty string. -/
def NewStore {σ : Type} (queries : sqlc.Queries σ) (db : pgx.Conn σ) : Store σ :=
  { Queries := queries, db := db, entityType := "" }

namespace Store

variable {σ : Type}

def SetEntityType (s : Store σ) (entityType : EntityType) : Store σ :=
  { s with entityType := entityType }

/-- The Store after the earlier operations on it have called `SetEntityType`
with the tags `tags`, oldest first. `SetEntityType` is the only method that
writes a field of the Store, so these are the states a Store can reach. -/
def afterSetting (s : Store σ) (tags : List EntityType) : Store σ :=
  tags.foldl SetEntityType s

def HandleError (s : Store σ) (err : Option GoError) : Option GoError :=
  match err with
  | none => none
  | some e =>
    if e = pgx.ErrNoRows then
      if s.entityType = Image then some storage.ErrImageNotFound
      else if s.entityType = Sensor then some storage.ErrSensorNotFound
      else if s.entityType = Flowerbed then some storage.ErrFlowerbedNotFound
      else if s.entityType = TreeCluster then some storage.ErrTreeClusterNotFound
      else some storage.ErrEntityNotFound
    else if e = pgx.ErrTooManyRows then some storage.ErrToManyRows
    else if e = pgx.ErrTxClosed then some storage.ErrTxClosed
    else if e = pgx.ErrTxCommitRollback then some storage.ErrTxCommitRollback
    else if e = sql.ErrConnDone then some storage.ErrConnectionClosed
    else some (errors.Wrap e "unknown error in postgres store")

def WithTx (s : Store σ) (fn : pgx.Tx σ → σ → Option GoError × σ) (w : World σ) :
    Option GoError × World σ :=
  match w.call Call.BeginTx s.db.BeginTx with
  | (Except.error err, w1) => (some err, w1)
  | (Except.ok tx, w1) =>
    match w1.call Call.fn (fn tx) with
    | (some _, w2) =>
      match w2.call Call.Rollback tx.Rollback with
      | (some err, w3) => (some err, w3)
      | (none, w3) => w3.call Call.Commit tx.Commit
    | (none, w2) => w2.call Call.Commit tx.Commit

def CheckSensorExists (s : Store σ) (sensorID : Option Int) (w : World σ) :
    Option GoError × World σ :=
  match sensorID with
  | some id =>
    match w.call (Call.GetSensorByID id) (s.Queries.GetSensorByID id) with
    | (Except.error err, w1) =>
      if errors.Is err pgx.ErrNoRows then (some storage.ErrSensorNotFound, w1)
      else (s.HandleError (some err), w1)
    | (Except.ok _, w1) => (none, w1)
  | none => (none, w)

def CheckImageExists (s : Store σ) (imageID : Option Int) (w : World σ) :
    Option GoError × World σ :=
  match imageID with
  | some id =>
    match w.call (Call.GetImageByID id) (s.Queries.GetImageByID id) with
    | (Except.error err, w1) =>
      if errors.Is err pgx.ErrNoRows then (some storage.ErrImageNotFound, w1)
      else (s.HandleError (some err), w1)
    | (Except.ok _, w1) => (none, w1)
  | none => (none, w)

end Store

end store

namespace sensor

/-- The mapper of the sensor repository (generated code, not among the
sources), as far as the embedded methods use it. -/
structure SensorRepositoryMappers where
  FromSql : sqlc.Sensor → entities.Sensor

structure SensorRepository (σ : Type) where
  store : store.Store σ
  mapper : SensorRepositoryMappers

namespace SensorRepository

variable {σ : Type}

def GetByID (r : SensorRepository σ) (id : Int) (w : World σ) :
    (Option entities.Sensor × Option GoError) × World σ :=
  match w.call (Call.GetSensorByID id) (r.store.Queries.GetSensorByID id) with
  | (Except.error err, w1) => ((none, some err), w1)
  | (Except.ok row, w1) => ((some (r.mapper.FromSql row), none), w1)

def GetStatusByID (r : SensorRepository σ) (id : Int) (w : World σ) :
    Except Panic ((Option entities.SensorStatus × Option GoError) × World σ) :=
  match r.GetByID id w with
  | ((_, some err), w1) => Except.ok ((none, some err), w1)
  | ((some sensor, none), w1) => Except.ok ((some sensor.Status, none), w1)
  | ((none, none), _) => Except.error Panic.nilPointerDereference

end SensorRepository

end sensor

namespace treecluster

/-- The tree-cluster repository. Its method `GetByID` is defined in a file that
is not among the sources and is taken as a parameter: a fetch that acts on the
outside world and yields either the entity or an error. -/
structure TreeClusterRepository (σ : Type) where
  store : store.Store σ
  GetByID : Int → σ → Except GoError entities.TreeCluster × σ

def defaultTreeCluster : entities.TreeCluster :=
  { ID := 0
    CreatedAt := ⟨0⟩
    UpdatedAt := ⟨0⟩
    Region := none
    Address := ""
    Description := ""
    MoistureLevel := Float64.zero
    Latitude := none
    Longitude := none
    WateringStatus := entities.TreeClusterWateringStatusUnknown
    SoilCondition := entities.TreeSoilConditionUnknown
    Archived := false
    LastWatered := none
    Trees := []
    Name := "" }

namespace TreeClusterRepository

variable {σ : Type}

/-- The literal `sqlc.CreateTreeClusterParams{...}` that `createEntity` builds. -/
def createParams (entity : entities.TreeCluster) : sqlc.CreateTreeClusterParams :=
  { RegionID := match entity.Region with
      | some region => some region.ID
      | none => none
    Address := entity.Address
    Description := entity.Description
    MoistureLevel := entity.MoistureLevel
    WateringStatus := entity.WateringStatus
    SoilCondition := entity.SoilCondition
    Name := entity.Name }

def createEntity (r : TreeClusterRepository σ) (entity : entities.TreeCluster)
    (w : World σ) : (Int × Option GoError) × World σ :=
  let args := createParams entity
  match w.call (Call.CreateTreeCluster args) (r.store.Queries.CreateTreeCluster args) with
  | (Except.error err, w1) => ((-1, some err), w1)
  | (Except.ok id, w1) =>
    if entity.Latitude ≠ none ∧ entity.Longitude ≠ none then
      let loc : sqlc.SetTreeClusterLocationParams :=
        { ID := id, Latitude := entity.Latitude, Longitude := entity.Longitude }
      match w1.call (Call.SetTreeClusterLocation loc)
          (r.store.Queries.SetTreeClusterLocation loc) with
      | (some err, w2) => ((-1, some err), w2)
      | (none, w2) => ((id, none), w2)
    else ((id, none), w1)

/-- `Create`. The assignment `entity.ID = id` writes to the in-memory entity
that is dropped right after; the result is the fetch by identifier. -/
def Create (r : TreeClusterRepository σ)
    (tcFn : List (entities.EntityFunc entities.TreeCluster)) (w : World σ) :
    (Option entities.TreeCluster × Option GoError) × World σ :=
  let entity := tcFn.foldl (fun e fn => fn e) defaultTreeCluster
  match r.createEntity entity w with
  | ((_, some err), w1) => ((none, r.store.HandleError (some err)), w1)
  | ((id, none), w1) =>
    match w1.call (Call.GetByID id) (r.GetByID id) with
    | (Except.error err, w2) => ((none, some err), w2)
    | (Except.ok tc, w2) => ((some tc, none), w2)

/-- `updateEntity`. The literal takes `&tc.Region.ID` without a nil check: with
an absent region the evaluation panics before any query is made. -/
def updateEntity (r : TreeClusterRepository σ) (tc : entities.TreeCluster)
    (w : World σ) : Except Panic (Option GoError × World σ) :=
  match tc.Region with
  | none => Except.error Panic.nilPointerDereference
  | some region =>
    let args : sqlc.UpdateTreeClusterParams :=
      { ID := tc.ID
        RegionID := some region.ID
        Address := tc.Address
        Description := tc.Description
        MoistureLevel := tc.MoistureLevel
        WateringStatus := tc.WateringStatus
        SoilCondition := tc.SoilCondition
        LastWatered := utils.TimeToPgTimestamp tc.LastWatered
        Archived := tc.Archived }
    Except.ok (w.call (Call.UpdateTreeCluster args) (r.store.Queries.UpdateTreeCluster args))

def Update (r : TreeClusterRepository σ) (id : Int)
    (tcFn : List (entities.EntityFunc entities.TreeCluster)) (w : World σ) :
    Except Panic ((Option entities.TreeCluster × Option GoError) × World σ) :=
  match w.call (Call.GetByID id) (r.GetByID id) with
  | (Except.error err, w1) => Except.ok ((none, r.store.HandleError (some err)), w1)
  | (Except.ok tc0, w1) =>
    let tc := tcFn.foldl (fun e fn => fn e) tc0
    match r.updateEntity tc w1 with
    | Except.error p => Except.error p
    | Except.ok (some err, w2) => Except.ok ((none, some err), w2)
    | Except.ok (none, w2) => Except.ok ((some tc, none), w2)

end TreeClusterRepository

end treecluster

/-! ## An in-memory executor

A small executor over an in-memory database, used as the concrete input of the
examples: identifiers are handed out from 1, a lookup of an absent row reports
`pgx.ErrNoRows`, and a transaction restores the table on rollback and reports
`pgx.ErrTxClosed` when it is used after it was closed, as pgx does.
-/

namespace memdb

structure DB where
  clusters : List entities.TreeCluster
  sensors : List sqlc.Sensor
  images : List sqlc.Image
  txOpen : Bool
  snapshot : List entities.TreeCluster
  deriving DecidableEq, Repr

def empty : DB :=
  { clusters := [], sensors := [], images := [], txOpen := false, snapshot := [] }

def insertCluster (arg : sqlc.CreateTreeClusterParams) (db : DB) : Except GoError Int × DB :=
  let id : Int := db.clusters.length + 1
  let row : entities.TreeCluster :=
    { treecluster.defaultTreeCluster with
      ID := id
      Region := arg.RegionID.map (fun i => { ID := i, Name := "" })
      Address := arg.Address
      Description := arg.Description
      MoistureLevel := arg.MoistureLevel
      WateringStatus := arg.WateringStatus
      SoilCondition := arg.SoilCondition
      Name := arg.Name }
  (Except.ok id, { db with clusters := db.clusters ++ [row] })

def setLocation (arg : sqlc.SetTreeClusterLocationParams) (db : DB) : Option GoError × DB :=
  (none, { db with clusters := db.clusters.map (fun tc =>
    if tc.ID = arg.ID then { tc with Latitude := arg.Latitude, Longitude := arg.Longitude }
    else tc) })

def updateCluster (arg : sqlc.UpdateTreeClusterParams) (db : DB) : Option GoError × DB :=
  (none, { db with clusters := db.clusters.map (fun tc =>
    if tc.ID = arg.ID then
      { tc with Region := arg.RegionID.map (fun i => { ID := i, Name := "" }),
                Address := arg.Address, Description := arg.Description,
                MoistureLevel := arg.MoistureLevel, WateringStatus := arg.WateringStatus,
                SoilCondition := arg.SoilCondition,
                LastWatered := if arg.LastWatered.Valid then some arg.LastWatered.Time else none,
                Archived := arg.Archived }
    else tc) })

def queries : sqlc.Queries DB :=
  { GetSensorByID := fun id db =>
      match db.sensors.find? (fun row => decide (row.ID = id)) with
      | some row => (Except.ok row, db)
      | none => (Except.error pgx.ErrNoRows, db)
    GetImageByID := fun id db =>
      match db.images.find? (fun row => decide (row.ID = id)) with
      | some row => (Except.ok row, db)
      | none => (Except.error pgx.ErrNoRows, db)
    CreateTreeCluster := insertCluster
    SetTreeClusterLocation := setLocation
    UpdateTreeCluster := updateCluster }

/-- An executor whose every write fails with `err`. -/
def failingQueries (err : GoError) : sqlc.Queries DB :=
  { queries with
    CreateTreeCluster := fun _ db => (Except.error err, db)
    SetTreeClusterLocation := fun _ db => (some err, db)
    UpdateTreeCluster := fun _ db => (some err, db) }

/-- An executor whose insert succeeds and whose location write fails with `err`. -/
def failingLocation (err : GoError) : sqlc.Queries DB :=
  { queries with SetTreeClusterLocation := fun _ db => (some err, db) }

def tx : pgx.Tx DB :=
  { Rollback := fun db =>
      if db.txOpen then (none, { db with clusters := db.snapshot, txOpen := false })
      else (some pgx.ErrTxClosed, db)
    Commit := fun db =>
      if db.txOpen then (none, { db with txOpen := false })
      else (some pgx.ErrTxClosed, db) }

def conn : pgx.Conn DB :=
  { BeginTx := fun db => (Except.ok tx, { db with txOpen := true, snapshot := db.clusters }) }

/-- A connection that is already closed: no transaction can be begun. -/
def closedConn : pgx.Conn DB :=
  { BeginTx := fun db => (Except.error sql.ErrConnDone, db) }

/-- A connection whose transactions cannot be rolled back: `Rollback` fails
with `err`. -/
def brokenRollbackConn (err : GoError) : pgx.Conn DB :=
  { BeginTx := fun db =>
      (Except.ok { tx with Rollback := fun d => (some err, d) },
        { db with txOpen := true, snapshot := db.clusters }) }

def newStore : store.Store DB := store.NewStore queries conn

/-- A transaction body that inserts one tree cluster and then fails with `err`. -/
def insertThenFail (err : GoError) (_ : pgx.Tx DB) (db : DB) : Option GoError × DB :=
  (some err, (insertCluster (treecluster.TreeClusterRepository.createParams
    treecluster.defaultTreeCluster) db).2)

/-- A transaction body that inserts one tree cluster and succeeds. -/
def insertThenSucceed (_ : pgx.Tx DB) (db : DB) : Option GoError × DB :=
  (none, (insertCluster (treecluster.TreeClusterRepository.createParams
    treecluster.defaultTreeCluster) db).2)

/-- A fetch by identifier that reports the raw executor signal for an absent
row, as `SensorRepository.GetByID` does. -/
def fetchRaw (id : Int) (db : DB) : Except GoError entities.TreeCluster × DB :=
  match db.clusters.find? (fun tc => decide (tc.ID = id)) with
  | some tc => (Except.ok tc, db)
  | none => (Except.error pgx.ErrNoRows, db)

/-- Modelled from the spec: the fetch by identifier of the tree-cluster
repository is not among the sources; it reads and maps, and a "no rows" on the
fetch becomes the kind's not-found error via the Store. -/
def fetchClassified (s : store.Store DB) (id : Int) (db : DB) :
    Except GoError entities.TreeCluster × DB :=
  match db.clusters.find? (fun tc => decide (tc.ID = id)) with
  | some tc => (Except.ok tc, db)
  | none =>
    match s.HandleError (some pgx.ErrNoRows) with
    | some err => (Except.error err, db)
    | none => (Except.error pgx.ErrNoRows, db)

def sensorMappers : sensor.SensorRepositoryMappers :=
  { FromSql := fun row =>
      { ID := row.ID, CreatedAt := row.CreatedAt.Time, UpdatedAt := row.UpdatedAt.Time,
        Status := row.Status } }

/-- The sensor repository over the in-memory executor, its Store tagged
`entityType`. -/
def sensorRepo (entityType : store.EntityType) : sensor.SensorRepository DB :=
  { store := newStore.SetEntityType entityType, mapper := sensorMappers }

/-- A tree-cluster repository over the Store `s` whose fetch reports the raw
executor signal. -/
def clusterRepoRaw (s : store.Store DB) : treecluster.TreeClusterRepository DB :=
  { store := s, GetByID := fetchRaw }

/-- A tree-cluster repository over the Store `s` whose fetch classifies its
error through `s`. -/
def clusterRepoClassified (s : store.Store DB) : treecluster.TreeClusterRepository DB :=
  { store := s, GetByID := fetchClassified s }

/-- The error of the failing transaction bodies of the examples. -/
def boom : GoError := GoError.dynamic "boom"

/-- The tree-cluster repository of the examples: Store tagged `TreeCluster`. -/
def clusterRepo : treecluster.TreeClusterRepository DB :=
  clusterRepoRaw (newStore.SetEntityType store.TreeCluster)

/-- The mutations of the scenario: address "Main St 1", moisture level 0.5. -/
def mainStreet : List (entities.EntityFunc entities.TreeCluster) :=
  [fun tc => { tc with Address := "Main St 1" },
   fun tc => { tc with MoistureLevel := Float64.half }]

/-- The row the scenario leaves in the empty database. -/
def mainStreetStored : entities.TreeCluster :=
  { treecluster.defaultTreeCluster with
    ID := 1, Address := "Main St 1", MoistureLevel := Float64.half }

/-- Mutations that set both coordinates. -/
def withPosition : List (entities.EntityFunc entities.TreeCluster) :=
  [fun tc => { tc with Latitude := some ⟨0x404B3BCA8B1A3B4E⟩ },
   fun tc => { tc with Longitude := some ⟨0x4022E3C4B09E98DD⟩ }]

/-- Mutations that set the latitude only. -/
def withLatitudeOnly : List (entities.EntityFunc entities.TreeCluster) :=
  [fun tc => { tc with Latitude := some ⟨0x404B3BCA8B1A3B4E⟩ }]

/-- The default tree cluster after `withPosition`. -/
def positioned : entities.TreeCluster :=
  withPosition.foldl (fun e fn => fn e) treecluster.defaultTreeCluster

/-- The default tree cluster after `withLatitudeOnly`. -/
def latitudeOnly : entities.TreeCluster :=
  withLatitudeOnly.foldl (fun e fn => fn e) treecluster.defaultTreeCluster

/-- A sensor row with identifier 7. -/
def sensor7 : sqlc.Sensor :=
  { ID := 7, CreatedAt := ⟨⟨100⟩, true⟩, UpdatedAt := ⟨⟨200⟩, true⟩, Status := "online" }

/-- An image row with identifier 9. -/
def image9 : sqlc.Image :=
  { ID := 9, CreatedAt := ⟨⟨100⟩, true⟩, UpdatedAt := ⟨⟨200⟩, true⟩,
    Url := "https://example.org/9.png" }

/-- The zero-valued image row a left join yields when there is no image. -/
def noImage : sqlc.Image :=
  { ID := 0, CreatedAt := ⟨⟨0⟩, false⟩, UpdatedAt := ⟨⟨0⟩, false⟩, Url := "" }

/-- A database holding the sensor row 7 and the image row 9. -/
def stocked : DB :=
  { empty with sensors := [sensor7], images := [image9] }

/-- An executor whose lookups by identifier fail with `err`. -/
def failingLookups (err : GoError) : sqlc.Queries DB :=
  { queries with
    GetSensorByID := fun _ db => (Except.error err, db)
    GetImageByID := fun _ db => (Except.error err, db) }

/-- A database holding the tree cluster of the scenario, which has no region. -/
def withMainStreet : DB :=
  { empty with clusters := [mainStreetStored] }

end memdb

/-! ## Properties -/

namespace memdb

theorem fetchRaw_id (i : Int) (e : DB) (t : entities.TreeCluster)
    (h : (fetchRaw i e).1 = Except.ok t) : t.ID = i := by
  unfold fetchRaw at h
  cases hf : e.clusters.find? (fun tc => decide (tc.ID = i)) with
  | none => rw [hf] at h; simp at h
  | some tc =>
    rw [hf] at h
    simp at h
    have := List.find?_some hf
    rw [← h]
    simpa using this

theorem fetchRaw_readonly (i : Int) (e : DB) : (fetchRaw i e).2 = e := by
  unfold fetchRaw
  cases e.clusters.find? (fun tc => decide (tc.ID = i)) <;> rfl

theorem insertCluster_ne_zero (arg : sqlc.CreateTreeClusterParams) (e : DB) (i : Int)
    (h : (insertCluster arg e).1 = Except.ok i) : i ≠ 0 := by
  simp [insertCluster] at h
  omega

end memdb

theorem World.since_append {σ : Type} (w : World σ) (e : σ) (l : List Call) :
    World.since w { ext := e, calls := w.calls ++ l } = l := by
  simp [World.since]

theorem World.since_of_calls_eq {σ : Type} (w w2 : World σ) (l : List Call)
    (h : w2.calls = w.calls ++ l) : World.since w w2 = l := by
  simp [World.since, h]

theorem World.since_self {σ : Type} (w : World σ) : World.since w w = [] := by
  simp [World.since]

namespace store

variable {σ : Type}

theorem HandleError_noRows_eq (s : Store σ) :
    s.HandleError (some pgx.ErrNoRows) =
      if s.entityType = Image then some storage.ErrImageNotFound
      else if s.entityType = Sensor then some storage.ErrSensorNotFound
      else if s.entityType = Flowerbed then some storage.ErrFlowerbedNotFound
      else if s.entityType = TreeCluster then some storage.ErrTreeClusterNotFound
      else some storage.ErrEntityNotFound := by
  simp [Store.HandleError]

/-- `HandleError` never turns an error into nil. -/
theorem HandleError_some_ne_none (s : Store σ) (err : GoError) :
    s.HandleError (some err) ≠ none := by
  simp only [Store.HandleError]
  repeat' split
  all_goals simp

theorem WithTx_begin_error (s : Store σ) (fn : pgx.Tx σ → σ → Option GoError × σ)
    (w : World σ) (err : GoError) (e1 : σ)
    (hb : s.db.BeginTx w.ext = (Except.error err, e1)) :
    s.WithTx fn w = (some err, { ext := e1, calls := w.calls ++ [Call.BeginTx] }) := by
  simp [Store.WithTx, World.call, hb]

theorem WithTx_fn_ok (s : Store σ) (fn : pgx.Tx σ → σ → Option GoError × σ)
    (w : World σ) (tx : pgx.Tx σ) (e1 : σ)
    (hb : s.db.BeginTx w.ext = (Except.ok tx, e1)) (hf : (fn tx e1).1 = none) :
    s.WithTx fn w =
      ((tx.Commit (fn tx e1).2).1,
        { ext := (tx.Commit (fn tx e1).2).2,
          calls := w.calls ++ [Call.BeginTx, Call.fn, Call.Commit] }) := by
  simp [Store.WithTx, World.call, hb, hf]

/-- When the body fails and the rollback succeeds, `WithTx` falls through to
`Commit`: its result is what `Commit` returns on the rolled-back transaction. -/
theorem WithTx_fn_error_rollback_ok (s : Store σ) (fn : pgx.Tx σ → σ → Option GoError × σ)
    (w : World σ) (tx : pgx.Tx σ) (e1 : σ) (e : GoError)
    (hb : s.db.BeginTx w.ext = (Except.ok tx, e1)) (hf : (fn tx e1).1 = some e)
    (hr : (tx.Rollback (fn tx e1).2).1 = none) :
    s.WithTx fn w =
      ((tx.Commit (tx.Rollback (fn tx e1).2).2).1,
        { ext := (tx.Commit (tx.Rollback (fn tx e1).2).2).2,
          calls := w.calls ++ [Call.BeginTx, Call.fn, Call.Rollback, Call.Commit] }) := by
  simp [Store.WithTx, World.call, hb, hf, hr]

theorem WithTx_fn_error_rollback_error (s : Store σ)
    (fn : pgx.Tx σ → σ → Option GoError × σ)
    (w : World σ) (tx : pgx.Tx σ) (e1 : σ) (e re : GoError)
    (hb : s.db.BeginTx w.ext = (Except.ok tx, e1)) (hf : (fn tx e1).1 = some e)
    (hr : (tx.Rollback (fn tx e1).2).1 = some re) :
    s.WithTx fn w =
      (some re,
        { ext := (tx.Rollback (fn tx e1).2).2,
          calls := w.calls ++ [Call.BeginTx, Call.fn, Call.Rollback] }) := by
  simp [Store.WithTx, World.call, hb, hf, hr]

/-! ### C1 -/

/-- C1: for every Store, `HandleError` maps the executor's no-rows signal to the
not-found error selected by the Store's current entity tag: the image, sensor,
flowerbed and tree-cluster tags have their dedicated error, every other tag
yields the generic `ErrEntityNotFound`. -/
theorem HandleError_noRows_selects_notFound (s : Store σ) :
    (s.entityType = Image →
      s.HandleError (some pgx.ErrNoRows) = some storage.ErrImageNotFound) ∧
    (s.entityType = Sensor →
      s.HandleError (some pgx.ErrNoRows) = some storage.ErrSensorNotFound) ∧
    (s.entityType = Flowerbed →
      s.HandleError (some pgx.ErrNoRows) = some storage.ErrFlowerbedNotFound) ∧
    (s.entityType = TreeCluster →
      s.HandleError (some pgx.ErrNoRows) = some storage.ErrTreeClusterNotFound) ∧
    (s.entityType ≠ Image → s.entityType ≠ Sensor → s.entityType ≠ Flowerbed →
      s.entityType ≠ TreeCluster →
      s.HandleError (some pgx.ErrNoRows) = some storage.ErrEntityNotFound) := by
  rw [HandleError_noRows_eq]
  refine ⟨?_, ?_, ?_, ?_, ?_⟩
  · intro h; simp [h]
  · intro h; simp [h, Image, Sensor]
  · intro h; simp [h, Image, Sensor, Flowerbed]
  · intro h; simp [h, Image, Sensor, Flowerbed, TreeCluster]
  · intro h1 h2 h3 h4; simp [h1, h2, h3, h4]

/-- C1 at concrete Stores: the four dedicated tags, and `Tree`, `Vehicle`, the
empty tag of `NewStore` and the string "region" as tags without a dedicated
error. -/
theorem HandleError_noRows_selects_notFound_witness :
    (memdb.newStore.SetEntityType Image).HandleError (some pgx.ErrNoRows)
      = some storage.ErrImageNotFound ∧
    (memdb.newStore.SetEntityType Sensor).HandleError (some pgx.ErrNoRows)
      = some storage.ErrSensorNotFound ∧
    (memdb.newStore.SetEntityType Flowerbed).HandleError (some pgx.ErrNoRows)
      = some storage.ErrFlowerbedNotFound ∧
    (memdb.newStore.SetEntityType TreeCluster).HandleError (some pgx.ErrNoRows)
      = some storage.ErrTreeClusterNotFound ∧
    (memdb.newStore.SetEntityType Tree).HandleError (some pgx.ErrNoRows)
      = some storage.ErrEntityNotFound ∧
    (memdb.newStore.SetEntityType Vehicle).HandleError (some pgx.ErrNoRows)
      = some storage.ErrEntityNotFound ∧
    memdb.newStore.HandleError (some pgx.ErrNoRows) = some storage.ErrEntityNotFound ∧
    (memdb.newStore.SetEntityType "region").HandleError (some pgx.ErrNoRows)
      = some storage.ErrEntityNotFound :=
  ⟨(HandleError_noRows_selects_notFound _).1 rfl,
   (HandleError_noRows_selects_notFound _).2.1 rfl,
   (HandleError_noRows_selects_notFound _).2.2.1 rfl,
   (HandleError_noRows_selects_notFound _).2.2.2.1 rfl,
   (HandleError_noRows_selects_notFound _).2.2.2.2
     (by decide) (by decide) (by decide) (by decide),
   (HandleError_noRows_selects_notFound _).2.2.2.2
     (by decide) (by decide) (by decide) (by decide),
   (HandleError_noRows_selects_notFound _).2.2.2.2
     (by decide) (by decide) (by decide) (by decide),
   (HandleError_noRows_selects_notFound _).2.2.2.2
     (by decide) (by decide) (by decide) (by decide)⟩

/-! ### C2, C3, C4 -/

/-- C2, the code at the failing input: the body inserts a row and fails with
"boom", and the rollback succeeds. `WithTx` then goes on to `Commit` and
returns what `Commit` reports on the closed transaction, `pgx.ErrTxClosed`,
not the original error. On a transaction whose rollback fails, the rollback
error is returned. -/
theorem WithTx_failed_fn_loses_original_error :
    (memdb.newStore.WithTx (memdb.insertThenFail memdb.boom)
      (World.fresh memdb.empty)).1 = some pgx.ErrTxClosed ∧
    (memdb.newStore.WithTx (memdb.insertThenFail memdb.boom)
      (World.fresh memdb.empty)).1 ≠ some memdb.boom ∧
    ((NewStore memdb.queries
        (memdb.brokenRollbackConn (GoError.dynamic "rollback failed"))).WithTx
      (memdb.insertThenFail memdb.boom) (World.fresh memdb.empty)).1
      = some (GoError.dynamic "rollback failed") := by
  refine ⟨rfl, by decide, rfl⟩

/-- C3, the code at the failing input: the body inserts a row and fails, and
the rollback succeeds. The calls `WithTx` makes are `BeginTx`, the body,
`Rollback` and then `Commit`: `Commit` is invoked once, on the rolled-back
transaction. The in-memory table is back to what it was. -/
theorem WithTx_failed_fn_invokes_commit :
    World.since (World.fresh memdb.empty)
      (memdb.newStore.WithTx (memdb.insertThenFail memdb.boom)
        (World.fresh memdb.empty)).2
      = [Call.BeginTx, Call.fn, Call.Rollback, Call.Commit] ∧
    (World.since (World.fresh memdb.empty)
      (memdb.newStore.WithTx (memdb.insertThenFail memdb.boom)
        (World.fresh memdb.empty)).2).count Call.Commit = 1 ∧
    (memdb.newStore.WithTx (memdb.insertThenFail memdb.boom)
      (World.fresh memdb.empty)).2.ext.clusters = memdb.empty.clusters := by
  refine ⟨rfl, rfl, rfl⟩

/-- C4: when the body returns no error, `WithTx` makes exactly the calls
`BeginTx`, the body, `Commit` (one `Commit`, no `Rollback`) and returns what
`Commit` returns; when `BeginTx` fails, `WithTx` returns that error, the only
call made is `BeginTx` and the body is not invoked. -/
theorem WithTx_commits_exactly_once (s : Store σ)
    (fn : pgx.Tx σ → σ → Option GoError × σ) (w : World σ) :
    (∀ tx e1, s.db.BeginTx w.ext = (Except.ok tx, e1) → (fn tx e1).1 = none →
      (s.WithTx fn w).1 = (tx.Commit (fn tx e1).2).1 ∧
      (s.WithTx fn w).2.ext = (tx.Commit (fn tx e1).2).2 ∧
      World.since w (s.WithTx fn w).2 = [Call.BeginTx, Call.fn, Call.Commit] ∧
      (World.since w (s.WithTx fn w).2).count Call.Commit = 1 ∧
      (World.since w (s.WithTx fn w).2).count Call.Rollback = 0) ∧
    (∀ err e1, s.db.BeginTx w.ext = (Except.error err, e1) →
      (s.WithTx fn w).1 = some err ∧
      (s.WithTx fn w).2.ext = e1 ∧
      World.since w (s.WithTx fn w).2 = [Call.BeginTx] ∧
      (World.since w (s.WithTx fn w).2).count Call.fn = 0) := by
  constructor
  · intro tx e1 hb hf
    rw [WithTx_fn_ok s fn w tx e1 hb hf]
    simp [World.since_append]
  · intro err e1 hb
    rw [WithTx_begin_error s fn w err e1 hb]
    simp [World.since_append]

/-- C4 at concrete inputs: a body that inserts a row and succeeds commits (the
row is stored, `Commit` returns nil); on a closed connection the error of
`BeginTx` is returned and the body is not invoked. -/
theorem WithTx_commits_exactly_once_witness :
    ((memdb.newStore.WithTx memdb.insertThenSucceed (World.fresh memdb.empty)).1 = none ∧
      World.since (World.fresh memdb.empty)
        (memdb.newStore.WithTx memdb.insertThenSucceed (World.fresh memdb.empty)).2
        = [Call.BeginTx, Call.fn, Call.Commit] ∧
      (memdb.newStore.WithTx memdb.insertThenSucceed
        (World.fresh memdb.empty)).2.ext.clusters.length = 1) ∧
    ((NewStore memdb.queries memdb.closedConn).WithTx memdb.insertThenSucceed
        (World.fresh memdb.empty)).1 = some sql.ErrConnDone ∧
    World.since (World.fresh memdb.empty)
      ((NewStore memdb.queries memdb.closedConn).WithTx memdb.insertThenSucceed
        (World.fresh memdb.empty)).2 = [Call.BeginTx] :=
  ⟨⟨((WithTx_commits_exactly_once memdb.newStore memdb.insertThenSucceed
        (World.fresh memdb.empty)).1 memdb.tx _ rfl rfl).1,
     ((WithTx_commits_exactly_once memdb.newStore memdb.insertThenSucceed
        (World.fresh memdb.empty)).1 memdb.tx _ rfl rfl).2.2.1, rfl⟩,
   ((WithTx_commits_exactly_once (NewStore memdb.queries memdb.closedConn)
      memdb.insertThenSucceed (World.fresh memdb.empty)).2 sql.ErrConnDone _ rfl).1,
   ((WithTx_commits_exactly_once (NewStore memdb.queries memdb.closedConn)
      memdb.insertThenSucceed (World.fresh memdb.empty)).2 sql.ErrConnDone _ rfl).2.2.1⟩

end store

namespace sensor

variable {σ : Type}

/-- `GetByID` hands the executor's error to its caller as it is. -/
theorem SensorRepository.GetByID_error (r : SensorRepository σ) (id : Int) (w : World σ)
    (err : GoError) (e1 : σ)
    (hq : r.store.Queries.GetSensorByID id w.ext = (Except.error err, e1)) :
    r.GetByID id w =
      ((none, some err), { ext := e1, calls := w.calls ++ [Call.GetSensorByID id] }) := by
  simp [SensorRepository.GetByID, World.call, hq]

/-! ### C5 -/

/-- C5, the code at the failing input: a sensor repository whose Store is tagged
`Sensor`, over an executor without a row for identifier 42. `GetByID` returns no
entity and the executor's raw `pgx.ErrNoRows`, which is not `ErrSensorNotFound`;
`GetStatusByID` returns the same raw error. `HandleError` would have produced
`ErrSensorNotFound` from it. -/
theorem SensorRepository_GetByID_returns_raw_noRows :
    ((memdb.sensorRepo store.Sensor).GetByID 42 (World.fresh memdb.empty)).1
      = (none, some pgx.ErrNoRows) ∧
    pgx.ErrNoRows ≠ storage.ErrSensorNotFound ∧
    ((memdb.sensorRepo store.Sensor).GetStatusByID 42 (World.fresh memdb.empty)).map
      (fun res => res.1) = Except.ok (none, some pgx.ErrNoRows) ∧
    (memdb.sensorRepo store.Sensor).store.HandleError (some pgx.ErrNoRows)
      = some storage.ErrSensorNotFound := by
  refine ⟨rfl, by decide, rfl, rfl⟩

end sensor

namespace treecluster

variable {σ : Type}

namespace TreeClusterRepository

theorem createEntity_insert_error (r : TreeClusterRepository σ) (entity : entities.TreeCluster)
    (w : World σ) (err : GoError) (e1 : σ)
    (hq : r.store.Queries.CreateTreeCluster (createParams entity) w.ext
      = (Except.error err, e1)) :
    r.createEntity entity w =
      ((-1, some err),
        { ext := e1, calls := w.calls ++ [Call.CreateTreeCluster (createParams entity)] }) := by
  simp [createEntity, World.call, hq]

theorem createEntity_no_position (r : TreeClusterRepository σ) (entity : entities.TreeCluster)
    (w : World σ) (id : Int) (e1 : σ)
    (hq : r.store.Queries.CreateTreeCluster (createParams entity) w.ext = (Except.ok id, e1))
    (hp : entity.Latitude = none ∨ entity.Longitude = none) :
    r.createEntity entity w =
      ((id, none),
        { ext := e1, calls := w.calls ++ [Call.CreateTreeCluster (createParams entity)] }) := by
  have hn : ¬ (entity.Latitude ≠ none ∧ entity.Longitude ≠ none) := by
    rcases hp with h | h <;> simp [h]
  simp only [createEntity, World.call, hq, if_neg hn]

theorem createEntity_position_ok (r : TreeClusterRepository σ) (entity : entities.TreeCluster)
    (w : World σ) (id : Int) (e1 : σ) (lat lon : Float64)
    (hq : r.store.Queries.CreateTreeCluster (createParams entity) w.ext = (Except.ok id, e1))
    (hlat : entity.Latitude = some lat) (hlon : entity.Longitude = some lon)
    (hl : (r.store.Queries.SetTreeClusterLocation
      { ID := id, Latitude := some lat, Longitude := some lon } e1).1 = none) :
    r.createEntity entity w =
      ((id, none),
        { ext := (r.store.Queries.SetTreeClusterLocation
            { ID := id, Latitude := some lat, Longitude := some lon } e1).2,
          calls := w.calls ++ [Call.CreateTreeCluster (createParams entity),
            Call.SetTreeClusterLocation
              { ID := id, Latitude := some lat, Longitude := some lon }] }) := by
  simp [createEntity, World.call, hq, hlat, hlon, hl]

theorem createEntity_position_error (r : TreeClusterRepository σ)
    (entity : entities.TreeCluster)
    (w : World σ) (id : Int) (e1 : σ) (lat lon : Float64) (err : GoError)
    (hq : r.store.Queries.CreateTreeCluster (createParams entity) w.ext = (Except.ok id, e1))
    (hlat : entity.Latitude = some lat) (hlon : entity.Longitude = some lon)
    (hl : (r.store.Queries.SetTreeClusterLocation
      { ID := id, Latitude := some lat, Longitude := some lon } e1).1 = some err) :
    r.createEntity entity w =
      ((-1, some err),
        { ext := (r.store.Queries.SetTreeClusterLocation
            { ID := id, Latitude := some lat, Longitude := some lon } e1).2,
          calls := w.calls ++ [Call.CreateTreeCluster (createParams entity),
            Call.SetTreeClusterLocation
              { ID := id, Latitude := some lat, Longitude := some lon }] }) := by
  simp [createEntity, World.call, hq, hlat, hlon, hl]

/-- The log after `createEntity` once the insert has returned `id`: the insert
is added, followed by the location write exactly when both coordinates are
present. -/
theorem createEntity_calls_eq (r : TreeClusterRepository σ) (entity : entities.TreeCluster)
    (w : World σ) (id : Int) (e1 : σ)
    (hq : r.store.Queries.CreateTreeCluster (createParams entity) w.ext = (Except.ok id, e1)) :
    (r.createEntity entity w).2.calls =
      w.calls ++ Call.CreateTreeCluster (createParams entity) ::
        (if entity.Latitude ≠ none ∧ entity.Longitude ≠ none then
          [Call.SetTreeClusterLocation
            { ID := id, Latitude := entity.Latitude, Longitude := entity.Longitude }]
         else []) := by
  by_cases hb : entity.Latitude ≠ none ∧ entity.Longitude ≠ none
  · obtain ⟨lat, hlat⟩ := Option.ne_none_iff_exists'.mp hb.1
    obtain ⟨lon, hlon⟩ := Option.ne_none_iff_exists'.mp hb.2
    rw [if_pos hb]
    cases hl : (r.store.Queries.SetTreeClusterLocation
        { ID := id, Latitude := some lat, Longitude := some lon } e1).1 with
    | none =>
      rw [createEntity_position_ok r entity w id e1 lat lon hq hlat hlon hl, hlat, hlon]
    | some err =>
      rw [createEntity_position_error r entity w id e1 lat lon err hq hlat hlon hl,
        hlat, hlon]
  · rw [if_neg hb]
    have hp : entity.Latitude = none ∨ entity.Longitude = none := by
      by_cases h1 : entity.Latitude = none
      · exact Or.inl h1
      · right
        by_contra h2
        exact hb ⟨h1, h2⟩
    rw [createEntity_no_position r entity w id e1 hq hp]

theorem createEntity_calls (r : TreeClusterRepository σ) (entity : entities.TreeCluster)
    (w : World σ) (id : Int) (e1 : σ)
    (hq : r.store.Queries.CreateTreeCluster (createParams entity) w.ext = (Except.ok id, e1)) :
    World.since w (r.createEntity entity w).2 =
      Call.CreateTreeCluster (createParams entity) ::
        (if entity.Latitude ≠ none ∧ entity.Longitude ≠ none then
          [Call.SetTreeClusterLocation
            { ID := id, Latitude := entity.Latitude, Longitude := entity.Longitude }]
         else []) :=
  World.since_of_calls_eq w _ _ (createEntity_calls_eq r entity w id e1 hq)

/-- When `createEntity` succeeds, the identifier it returns is the one the
insert returned. -/
theorem createEntity_ok_inv (r : TreeClusterRepository σ) (entity : entities.TreeCluster)
    (w : World σ) (id : Int) (h : (r.createEntity entity w).1 = (id, none)) :
    ∃ e1, r.store.Queries.CreateTreeCluster (createParams entity) w.ext
      = (Except.ok id, e1) := by
  rcases hq : r.store.Queries.CreateTreeCluster (createParams entity) w.ext with ⟨res, e1⟩
  cases res with
  | error err =>
    rw [createEntity_insert_error r entity w err e1 hq] at h
    simp at h
  | ok i =>
    refine ⟨e1, ?_⟩
    by_cases hb : entity.Latitude ≠ none ∧ entity.Longitude ≠ none
    · obtain ⟨lat, hlat⟩ := Option.ne_none_iff_exists'.mp hb.1
      obtain ⟨lon, hlon⟩ := Option.ne_none_iff_exists'.mp hb.2
      cases hl : (r.store.Queries.SetTreeClusterLocation
          { ID := i, Latitude := some lat, Longitude := some lon } e1).1 with
      | none =>
        rw [createEntity_position_ok r entity w i e1 lat lon hq hlat hlon hl] at h
        simp at h
        rw [h]
      | some err =>
        rw [createEntity_position_error r entity w i e1 lat lon err hq hlat hlon hl] at h
        simp at h
    · have hp : entity.Latitude = none ∨ entity.Longitude = none := by
        by_cases h1 : entity.Latitude = none
        · exact Or.inl h1
        · right
          by_contra h2
          exact hb ⟨h1, h2⟩
      rw [createEntity_no_position r entity w i e1 hq hp] at h
      simp at h
      rw [h]

/-- The log after `createEntity` extends the log before it, and the first call
added is the insert. -/
theorem createEntity_calls_head (r : TreeClusterRepository σ) (entity : entities.TreeCluster)
    (w : World σ) :
    ∃ rest, (r.createEntity entity w).2.calls =
      w.calls ++ Call.CreateTreeCluster (createParams entity) :: rest := by
  rcases hq : r.store.Queries.CreateTreeCluster (createParams entity) w.ext with ⟨res, e1⟩
  cases res with
  | error err =>
    exact ⟨[], by rw [createEntity_insert_error r entity w err e1 hq]⟩
  | ok id =>
    exact ⟨_, createEntity_calls_eq r entity w id e1 hq⟩

/-- When the fetch by identifier fails with `err`, `Update` returns no entity
and `HandleError(err)`: it does not panic, the fetch is the only call it makes
and the mutations play no part in the result. -/
theorem Update_fetch_error (r : TreeClusterRepository σ) (id : Int)
    (tcFn : List (entities.EntityFunc entities.TreeCluster)) (w : World σ)
    (err : GoError) (e1 : σ)
    (hget : r.GetByID id w.ext = (Except.error err, e1)) :
    r.Update id tcFn w =
      Except.ok ((none, r.store.HandleError (some err)),
        { ext := e1, calls := w.calls ++ [Call.GetByID id] }) := by
  simp [Update, World.call, hget]

/-- When the fetch by identifier that follows the insert fails with `err`,
`Create` returns no entity and `err` as the fetch gave it, without a second
pass through `HandleError`. -/
theorem Create_fetch_error (r : TreeClusterRepository σ)
    (tcFn : List (entities.EntityFunc entities.TreeCluster)) (w w1 : World σ) (id : Int)
    (err : GoError) (e2 : σ)
    (hc : r.createEntity (tcFn.foldl (fun e fn => fn e) defaultTreeCluster) w
      = ((id, none), w1))
    (hget : r.GetByID id w1.ext = (Except.error err, e2)) :
    r.Create tcFn w =
      ((none, some err), { ext := e2, calls := w1.calls ++ [Call.GetByID id] }) := by
  simp [Create, hc, World.call, hget]

/-! ### C6 -/

/-- C6, the code at the failing input: identifier 9999 is not in the empty
database and the Store is tagged `TreeCluster`. The fetch by identifier turns
the no-rows signal into `ErrTreeClusterNotFound` through the Store. `Update`
returns no entity and makes no call but the fetch, yet it passes the error of
the fetch through `HandleError` a second time: what it returns is the
unknown-error wrapper around `ErrTreeClusterNotFound`, not
`ErrTreeClusterNotFound`. One pass of `HandleError` over the raw signal gives
`ErrTreeClusterNotFound` on this Store. -/
theorem Update_reclassifies_fetch_error :
    ((memdb.clusterRepoClassified (memdb.newStore.SetEntityType store.TreeCluster)).GetByID
        9999 memdb.empty).1 = Except.error storage.ErrTreeClusterNotFound ∧
    (memdb.clusterRepoClassified (memdb.newStore.SetEntityType store.TreeCluster)).Update
        9999 [] (World.fresh memdb.empty) =
      Except.ok ((none, some (errors.Wrap storage.ErrTreeClusterNotFound
          "unknown error in postgres store")),
        { ext := memdb.empty, calls := [Call.GetByID 9999] }) ∧
    (memdb.clusterRepoClassified (memdb.newStore.SetEntityType store.TreeCluster)).Update
        9999 [fun tc => { tc with Address := "Main St 1" }] (World.fresh memdb.empty) =
      (memdb.clusterRepoClassified (memdb.newStore.SetEntityType store.TreeCluster)).Update
        9999 [] (World.fresh memdb.empty) ∧
    errors.Wrap storage.ErrTreeClusterNotFound "unknown error in postgres store"
      ≠ storage.ErrTreeClusterNotFound ∧
    (memdb.newStore.SetEntityType store.TreeCluster).HandleError (some pgx.ErrNoRows)
      = some storage.ErrTreeClusterNotFound := by
  refine ⟨rfl, rfl, rfl, by decide, rfl⟩

theorem Create_of_createEntity_ok (r : TreeClusterRepository σ)
    (tcFn : List (entities.EntityFunc entities.TreeCluster)) (w w1 : World σ) (id : Int)
    (hc : r.createEntity (tcFn.foldl (fun e fn => fn e) defaultTreeCluster) w
      = ((id, none), w1)) :
    r.Create tcFn w =
      ((match (r.GetByID id w1.ext).1 with
        | Except.ok tc => (some tc, none)
        | Except.error err => (none, some err)),
        { ext := (r.GetByID id w1.ext).2, calls := w1.calls ++ [Call.GetByID id] }) := by
  simp only [Create, hc, World.call]
  cases (r.GetByID id w1.ext).1 <;> rfl

theorem Create_of_createEntity_error (r : TreeClusterRepository σ)
    (tcFn : List (entities.EntityFunc entities.TreeCluster)) (w w1 : World σ) (i : Int)
    (err : GoError)
    (hc : r.createEntity (tcFn.foldl (fun e fn => fn e) defaultTreeCluster) w
      = ((i, some err), w1)) :
    r.Create tcFn w = ((none, r.store.HandleError (some err)), w1) := by
  simp only [Create, hc]

/-! ### C7 -/

/-- C7: with `entity` the default tree cluster after the mutations,
* when `createEntity` succeeds with `id`, the result of `Create` is exactly the
  result of `GetByID` on `id` (entity or error);
* when `Create` returns an entity, `id` is the identifier the insert returned
  and the entity is the one `GetByID` yields for it; it carries that identifier
  when the fetch yields entities under the identifier asked for, the identifier
  is not the sentinel 0 when the insert never hands out 0, and a further
  `GetByID` on the storage `Create` left returns the same entity when the fetch
  leaves storage unchanged;
* when the insert, or the location write that follows it, fails with `err`,
  `Create` returns no entity and `HandleError(err)`. -/
theorem Create_returns_fetch_of_inserted_id (r : TreeClusterRepository σ)
    (tcFn : List (entities.EntityFunc entities.TreeCluster)) (w : World σ) :
    (∀ id w1, r.createEntity (tcFn.foldl (fun e fn => fn e) defaultTreeCluster) w
        = ((id, none), w1) →
      (r.Create tcFn w).1 =
        (match (r.GetByID id w1.ext).1 with
          | Except.ok tc => (some tc, none)
          | Except.error err => (none, some err)) ∧
      (r.Create tcFn w).2.ext = (r.GetByID id w1.ext).2 ∧
      World.since w1 (r.Create tcFn w).2 = [Call.GetByID id]) ∧
    (∀ tc, (r.Create tcFn w).1 = (some tc, none) →
      ∃ id e1,
        r.store.Queries.CreateTreeCluster
          (createParams (tcFn.foldl (fun e fn => fn e) defaultTreeCluster)) w.ext
          = (Except.ok id, e1) ∧
        (r.createEntity (tcFn.foldl (fun e fn => fn e) defaultTreeCluster) w).1
          = (id, none) ∧
        (r.GetByID id
          (r.createEntity (tcFn.foldl (fun e fn => fn e) defaultTreeCluster) w).2.ext).1
          = Except.ok tc ∧
        ((∀ i e t, (r.GetByID i e).1 = Except.ok t → t.ID = i) → tc.ID = id) ∧
        ((∀ arg e i, (r.store.Queries.CreateTreeCluster arg e).1 = Except.ok i → i ≠ 0) →
          id ≠ 0) ∧
        ((∀ i e, (r.GetByID i e).2 = e) →
          (r.GetByID id (r.Create tcFn w).2.ext).1 = Except.ok tc)) ∧
    (∀ err e1,
      r.store.Queries.CreateTreeCluster
        (createParams (tcFn.foldl (fun e fn => fn e) defaultTreeCluster)) w.ext
        = (Except.error err, e1) →
      (r.Create tcFn w).1 = (none, r.store.HandleError (some err))) ∧
    (∀ id e1 lat lon err,
      r.store.Queries.CreateTreeCluster
        (createParams (tcFn.foldl (fun e fn => fn e) defaultTreeCluster)) w.ext
        = (Except.ok id, e1) →
      (tcFn.foldl (fun e fn => fn e) defaultTreeCluster).Latitude = some lat →
      (tcFn.foldl (fun e fn => fn e) defaultTreeCluster).Longitude = some lon →
      (r.store.Queries.SetTreeClusterLocation
        { ID := id, Latitude := some lat, Longitude := some lon } e1).1 = some err →
      (r.Create tcFn w).1 = (none, r.store.HandleError (some err))) := by
  refine ⟨?_, ?_, ?_, ?_⟩
  · intro id w1 hc
    rw [Create_of_createEntity_ok r tcFn w w1 id hc]
    exact ⟨rfl, rfl, World.since_append w1 _ _⟩
  · intro tc hres
    rcases hc : r.createEntity (tcFn.foldl (fun e fn => fn e) defaultTreeCluster) w
      with ⟨⟨id, oerr⟩, w1⟩
    cases oerr with
    | some err =>
      rw [Create_of_createEntity_error r tcFn w w1 id err hc] at hres
      simp at hres
    | none =>
      have hcr := Create_of_createEntity_ok r tcFn w w1 id hc
      obtain ⟨e1, hins⟩ := createEntity_ok_inv r _ w id (by rw [hc])
      have hget : (r.GetByID id w1.ext).1 = Except.ok tc := by
        rw [hcr] at hres
        cases hg : (r.GetByID id w1.ext).1 with
        | error err => rw [hg] at hres; simp at hres
        | ok t =>
          rw [hg] at hres
          simp at hres
          rw [hres]
      refine ⟨id, e1, hins, by rw [hc], by rw [hc]; exact hget, ?_, ?_, ?_⟩
      · intro hid
        exact hid id w1.ext tc hget
      · intro hnz
        exact hnz _ w.ext id (by rw [hins])
      · intro hread
        rw [hcr]
        simp only
        rw [hread id w1.ext]
        exact hget
  · intro err e1 hq
    rw [Create_of_createEntity_error r tcFn w _ (-1) err
      (createEntity_insert_error r _ w err e1 hq)]
  · intro id e1 lat lon err hq hlat hlon hl
    rw [Create_of_createEntity_error r tcFn w _ (-1) err
      (createEntity_position_error r _ w id e1 lat lon err hq hlat hlon hl)]

/-- C7 at concrete inputs: the scenario on the empty in-memory database returns
the stored row, whose identifier 1 is not the sentinel and under which a
further fetch returns the same entity; with an executor whose writes fail with
"boom", `Create` returns no entity and the classified error. -/
theorem Create_returns_fetch_of_inserted_id_witness :
    (memdb.clusterRepo.Create memdb.mainStreet (World.fresh memdb.empty)).1
      = (some memdb.mainStreetStored, none) ∧
    memdb.mainStreetStored.ID ≠ 0 ∧
    (memdb.clusterRepo.GetByID memdb.mainStreetStored.ID
      (memdb.clusterRepo.Create memdb.mainStreet (World.fresh memdb.empty)).2.ext).1
      = Except.ok memdb.mainStreetStored ∧
    ((memdb.clusterRepoRaw (store.NewStore (memdb.failingQueries memdb.boom) memdb.conn)).Create
      memdb.mainStreet (World.fresh memdb.empty)).1
      = (none, some (errors.Wrap memdb.boom "unknown error in postgres store")) := by
  obtain ⟨id, e1, -, -, -, hid, hnz, hread⟩ :=
    (Create_returns_fetch_of_inserted_id memdb.clusterRepo memdb.mainStreet
      (World.fresh memdb.empty)).2.1 memdb.mainStreetStored rfl
  have h1 : memdb.mainStreetStored.ID = id := hid memdb.fetchRaw_id
  refine ⟨rfl, ?_, ?_, ?_⟩
  · rw [h1]
    exact hnz memdb.insertCluster_ne_zero
  · rw [h1]
    exact hread memdb.fetchRaw_readonly
  · exact (Create_returns_fetch_of_inserted_id
      (memdb.clusterRepoRaw (store.NewStore (memdb.failingQueries memdb.boom) memdb.conn))
      memdb.mainStreet (World.fresh memdb.empty)).2.2.1 memdb.boom memdb.empty rfl

/-- The log after `Create` extends the log before it, and the first call added
is the insert of the mutated default entity. -/
theorem Create_calls_head (r : TreeClusterRepository σ)
    (tcFn : List (entities.EntityFunc entities.TreeCluster)) (w : World σ) :
    ∃ rest, (r.Create tcFn w).2.calls =
      w.calls ++ Call.CreateTreeCluster
        (createParams (tcFn.foldl (fun e fn => fn e) defaultTreeCluster)) :: rest := by
  obtain ⟨rest, hrest⟩ :=
    createEntity_calls_head r (tcFn.foldl (fun e fn => fn e) defaultTreeCluster) w
  rcases hc : r.createEntity (tcFn.foldl (fun e fn => fn e) defaultTreeCluster) w
    with ⟨⟨id, oerr⟩, w1⟩
  rw [hc] at hrest
  cases oerr with
  | some err =>
    rw [Create_of_createEntity_error r tcFn w w1 id err hc]
    exact ⟨rest, hrest⟩
  | none =>
    rw [Create_of_createEntity_ok r tcFn w w1 id hc]
    refine ⟨rest ++ [Call.GetByID id], ?_⟩
    simp only at hrest
    simp [hrest]

theorem Create_since_head (r : TreeClusterRepository σ)
    (tcFn : List (entities.EntityFunc entities.TreeCluster)) (w : World σ) :
    (World.since w (r.Create tcFn w).2).head? =
      some (Call.CreateTreeCluster
        (createParams (tcFn.foldl (fun e fn => fn e) defaultTreeCluster))) := by
  obtain ⟨rest, hrest⟩ := Create_calls_head r tcFn w
  rw [World.since_of_calls_eq w _ _ hrest]
  rfl

/-! ### C8 -/

/-- C8: the first call `Create` makes is the insert, and its parameters are the
projection of the default tree cluster after the mutations were applied in the
order supplied. The default has no region, empty address, description and name,
moisture level 0, no position, unknown watering status and soil condition, is
not archived, has no last-watered time and no trees. For `[f1, f2]` the written
entity is `f2 (f1 default)`, so a field `f2` sets is written with the value of
`f2`. With only address "Main St 1" and moisture level 0.5 set, the written
watering status and soil condition are unknown and the region id is absent. -/
theorem Create_projects_mutated_default (r : TreeClusterRepository σ)
    (tcFn : List (entities.EntityFunc entities.TreeCluster)) (w : World σ) :
    (World.since w (r.Create tcFn w).2).head? =
      some (Call.CreateTreeCluster
        (createParams (tcFn.foldl (fun e fn => fn e) defaultTreeCluster))) ∧
    (defaultTreeCluster.Region = none ∧ defaultTreeCluster.Address = "" ∧
      defaultTreeCluster.Description = "" ∧ defaultTreeCluster.Name = "" ∧
      defaultTreeCluster.MoistureLevel = Float64.zero ∧
      defaultTreeCluster.Latitude = none ∧ defaultTreeCluster.Longitude = none ∧
      defaultTreeCluster.WateringStatus = "unknown" ∧
      defaultTreeCluster.SoilCondition = "unknown" ∧
      defaultTreeCluster.Archived = false ∧ defaultTreeCluster.LastWatered = none ∧
      defaultTreeCluster.Trees = []) ∧
    (∀ f1 f2 : entities.EntityFunc entities.TreeCluster,
      (World.since w (r.Create [f1, f2] w).2).head? =
        some (Call.CreateTreeCluster (createParams (f2 (f1 defaultTreeCluster)))) ∧
      (∀ v, (∀ e, (f2 e).Address = v) →
        (createParams (f2 (f1 defaultTreeCluster))).Address = v) ∧
      (∀ v, (∀ e, (f2 e).Description = v) →
        (createParams (f2 (f1 defaultTreeCluster))).Description = v) ∧
      (∀ v, (∀ e, (f2 e).Name = v) →
        (createParams (f2 (f1 defaultTreeCluster))).Name = v) ∧
      (∀ v, (∀ e, (f2 e).MoistureLevel = v) →
        (createParams (f2 (f1 defaultTreeCluster))).MoistureLevel = v) ∧
      (∀ v, (∀ e, (f2 e).WateringStatus = v) →
        (createParams (f2 (f1 defaultTreeCluster))).WateringStatus = v) ∧
      (∀ v, (∀ e, (f2 e).SoilCondition = v) →
        (createParams (f2 (f1 defaultTreeCluster))).SoilCondition = v) ∧
      (∀ v, (∀ e, (f2 e).Region = some v) →
        (createParams (f2 (f1 defaultTreeCluster))).RegionID = some v.ID)) ∧
    (World.since w (r.Create
        [fun tc => { tc with Address := "Main St 1" },
         fun tc => { tc with MoistureLevel := Float64.half }] w).2).head? =
      some (Call.CreateTreeCluster
        { RegionID := none, Address := "Main St 1", Description := "",
          MoistureLevel := Float64.half, WateringStatus := "unknown",
          SoilCondition := "unknown", Name := "" }) := by
  refine ⟨Create_since_head r tcFn w, by decide, ?_, ?_⟩
  · intro f1 f2
    refine ⟨Create_since_head r [f1, f2] w, ?_, ?_, ?_, ?_, ?_, ?_, ?_⟩
    · intro v h; exact h _
    · intro v h; exact h _
    · intro v h; exact h _
    · intro v h; exact h _
    · intro v h; exact h _
    · intro v h; exact h _
    · intro v h
      simp [createParams, h]
  · rw [Create_since_head]
    rfl

/-- C8 at a concrete input: two mutations that both set the address; the
written address is the second one. -/
theorem Create_projects_mutated_default_witness :
    (World.since (World.fresh memdb.empty)
      (memdb.clusterRepo.Create
        [fun tc => { tc with Address := "Main St 1" },
         fun tc => { tc with Address := "Side St 2" }] (World.fresh memdb.empty)).2).head? =
      some (Call.CreateTreeCluster
        { RegionID := none, Address := "Side St 2", Description := "",
          MoistureLevel := Float64.zero, WateringStatus := "unknown",
          SoilCondition := "unknown", Name := "" }) :=
  ((Create_projects_mutated_default memdb.clusterRepo [] (World.fresh memdb.empty)).2.2.1
    (fun tc => { tc with Address := "Main St 1" })
    (fun tc => { tc with Address := "Side St 2" })).1

/-! ### C9 -/

/-- C9: once the insert has returned `id`, `createEntity` issues the location
write if and only if both latitude and longitude are present; a location write
it issues carries `id` and exactly the two values; with both present the calls
are the insert and that one location write; when one of the two, or neither, is
present the insert is the only call, the outside world is as the insert left
it and `id` is returned. -/
theorem createEntity_location_iff_both (r : TreeClusterRepository σ)
    (entity : entities.TreeCluster) (w : World σ) (id : Int) (e1 : σ)
    (hq : r.store.Queries.CreateTreeCluster (createParams entity) w.ext = (Except.ok id, e1)) :
    ((∃ p, Call.SetTreeClusterLocation p ∈ World.since w (r.createEntity entity w).2) ↔
      (entity.Latitude ≠ none ∧ entity.Longitude ≠ none)) ∧
    (∀ p, Call.SetTreeClusterLocation p ∈ World.since w (r.createEntity entity w).2 →
      p = { ID := id, Latitude := entity.Latitude, Longitude := entity.Longitude }) ∧
    (entity.Latitude ≠ none ∧ entity.Longitude ≠ none →
      World.since w (r.createEntity entity w).2 =
        [Call.CreateTreeCluster (createParams entity),
         Call.SetTreeClusterLocation
          { ID := id, Latitude := entity.Latitude, Longitude := entity.Longitude }]) ∧
    (entity.Latitude = none ∨ entity.Longitude = none →
      World.since w (r.createEntity entity w).2 =
        [Call.CreateTreeCluster (createParams entity)] ∧
      (r.createEntity entity w).2.ext = e1 ∧
      (r.createEntity entity w).1 = (id, none)) := by
  have hc := createEntity_calls r entity w id e1 hq
  by_cases hb : entity.Latitude ≠ none ∧ entity.Longitude ≠ none
  · rw [if_pos hb] at hc
    rw [hc]
    refine ⟨?_, ?_, fun _ => rfl, ?_⟩
    · simp [hb]
    · intro p hp
      simpa using hp
    · intro hp
      rcases hp with h | h
      · exact absurd h hb.1
      · exact absurd h hb.2
  · rw [if_neg hb] at hc
    rw [hc]
    refine ⟨?_, ?_, fun h => absurd h hb, ?_⟩
    · simp [hb]
    · intro p hp
      simp at hp
    · intro hp
      rw [createEntity_no_position r entity w id e1 hq hp]
      exact ⟨rfl, rfl, rfl⟩

/-- C9 at concrete inputs, on the empty in-memory database: with both
coordinates set the insert is followed by one location write under the
identifier 1; with the latitude alone the insert is the only call and the
stored row has no position. -/
theorem createEntity_location_iff_both_witness :
    World.since (World.fresh memdb.empty)
      (memdb.clusterRepo.createEntity
        memdb.positioned
        (World.fresh memdb.empty)).2 =
      [Call.CreateTreeCluster
        (createParams memdb.positioned),
       Call.SetTreeClusterLocation
        { ID := 1, Latitude := some ⟨0x404B3BCA8B1A3B4E⟩,
          Longitude := some ⟨0x4022E3C4B09E98DD⟩ }] ∧
    (World.since (World.fresh memdb.empty)
      (memdb.clusterRepo.createEntity
        memdb.latitudeOnly
        (World.fresh memdb.empty)).2 =
      [Call.CreateTreeCluster
        (createParams memdb.latitudeOnly)] ∧
     (memdb.clusterRepo.createEntity
        memdb.latitudeOnly
        (World.fresh memdb.empty)).2.ext.clusters =
      [{ defaultTreeCluster with ID := 1 }] ∧
     (memdb.clusterRepo.createEntity
        memdb.latitudeOnly
        (World.fresh memdb.empty)).1 = (1, none)) :=
  ⟨(createEntity_location_iff_both memdb.clusterRepo
      memdb.positioned
      (World.fresh memdb.empty) 1 _ rfl).2.2.1 ⟨by decide, by decide⟩,
   ((createEntity_location_iff_both memdb.clusterRepo
      memdb.latitudeOnly
      (World.fresh memdb.empty) 1 _ rfl).2.2.2 (Or.inr (by decide))).1,
   rfl,
   ((createEntity_location_iff_both memdb.clusterRepo
      memdb.latitudeOnly
      (World.fresh memdb.empty) 1 _ rfl).2.2.2 (Or.inr (by decide))).2.2⟩

end TreeClusterRepository

end treecluster

namespace store

variable {σ : Type}

/-! ### C10 -/

/-- C10: with an absent identifier `CheckSensorExists` and `CheckImageExists`
return nil and leave the world as it is: no call is made, so the lookup query
is not invoked. -/
theorem checkExists_nil_makes_no_call (s : Store σ) (w : World σ) :
    s.CheckSensorExists none w = (none, w) ∧
    s.CheckImageExists none w = (none, w) ∧
    World.since w (s.CheckSensorExists none w).2 = [] ∧
    World.since w (s.CheckImageExists none w).2 = [] := by
  simp [Store.CheckSensorExists, Store.CheckImageExists, World.since_self]

end store

namespace errors

theorem Is_self (err : GoError) : Is err err = true := by
  cases err <;> simp [Is]

/-- A wrapper matches whatever the error it wraps matches. -/
theorem Is_Wrap (err target : GoError) (msg : String) (h : Is err target = true) :
    Is (Wrap err msg) target = true := by
  simp [Wrap, Is, h]

end errors

namespace store

variable {σ : Type}

theorem CheckSensorExists_ok (s : Store σ) (id : Int) (w : World σ) (row : sqlc.Sensor)
    (e1 : σ) (hq : s.Queries.GetSensorByID id w.ext = (Except.ok row, e1)) :
    s.CheckSensorExists (some id) w =
      (none, { ext := e1, calls := w.calls ++ [Call.GetSensorByID id] }) := by
  simp [Store.CheckSensorExists, World.call, hq]

theorem CheckSensorExists_error (s : Store σ) (id : Int) (w : World σ) (err : GoError)
    (e1 : σ) (hq : s.Queries.GetSensorByID id w.ext = (Except.error err, e1)) :
    s.CheckSensorExists (some id) w =
      (if errors.Is err pgx.ErrNoRows = true then some storage.ErrSensorNotFound
        else s.HandleError (some err),
       { ext := e1, calls := w.calls ++ [Call.GetSensorByID id] }) := by
  by_cases h : errors.Is err pgx.ErrNoRows = true <;>
    simp [Store.CheckSensorExists, World.call, hq, h]

theorem CheckImageExists_ok (s : Store σ) (id : Int) (w : World σ) (row : sqlc.Image)
    (e1 : σ) (hq : s.Queries.GetImageByID id w.ext = (Except.ok row, e1)) :
    s.CheckImageExists (some id) w =
      (none, { ext := e1, calls := w.calls ++ [Call.GetImageByID id] }) := by
  simp [Store.CheckImageExists, World.call, hq]

theorem CheckImageExists_error (s : Store σ) (id : Int) (w : World σ) (err : GoError)
    (e1 : σ) (hq : s.Queries.GetImageByID id w.ext = (Except.error err, e1)) :
    s.CheckImageExists (some id) w =
      (if errors.Is err pgx.ErrNoRows = true then some storage.ErrImageNotFound
        else s.HandleError (some err),
       { ext := e1, calls := w.calls ++ [Call.GetImageByID id] }) := by
  by_cases h : errors.Is err pgx.ErrNoRows = true <;>
    simp [Store.CheckImageExists, World.call, hq, h]

/-! ### C11 -/

/-- C11: for a present identifier and any Store (whatever its tag), each check
makes its lookup once; when the lookup succeeds the check returns nil; when it
fails with an error that is `pgx.ErrNoRows` or wraps it, `CheckSensorExists`
returns `ErrSensorNotFound` and `CheckImageExists` returns `ErrImageNotFound`;
when it fails with any other error the check returns `HandleError` of that
error. -/
theorem checkExists_present (s : Store σ) (id : Int) (w : World σ) :
    (World.since w (s.CheckSensorExists (some id) w).2 = [Call.GetSensorByID id] ∧
      World.since w (s.CheckImageExists (some id) w).2 = [Call.GetImageByID id]) ∧
    (∀ row e1, s.Queries.GetSensorByID id w.ext = (Except.ok row, e1) →
      (s.CheckSensorExists (some id) w).1 = none) ∧
    (∀ row e1, s.Queries.GetImageByID id w.ext = (Except.ok row, e1) →
      (s.CheckImageExists (some id) w).1 = none) ∧
    (∀ err e1, s.Queries.GetSensorByID id w.ext = (Except.error err, e1) →
      errors.Is err pgx.ErrNoRows = true →
      (s.CheckSensorExists (some id) w).1 = some storage.ErrSensorNotFound) ∧
    (∀ err e1, s.Queries.GetImageByID id w.ext = (Except.error err, e1) →
      errors.Is err pgx.ErrNoRows = true →
      (s.CheckImageExists (some id) w).1 = some storage.ErrImageNotFound) ∧
    (∀ err e1, s.Queries.GetSensorByID id w.ext = (Except.error err, e1) →
      errors.Is err pgx.ErrNoRows = false →
      (s.CheckSensorExists (some id) w).1 = s.HandleError (some err)) ∧
    (∀ err e1, s.Queries.GetImageByID id w.ext = (Except.error err, e1) →
      errors.Is err pgx.ErrNoRows = false →
      (s.CheckImageExists (some id) w).1 = s.HandleError (some err)) ∧
    (errors.Is pgx.ErrNoRows pgx.ErrNoRows = true ∧
      ∀ err msg, errors.Is err pgx.ErrNoRows = true →
        errors.Is (errors.Wrap err msg) pgx.ErrNoRows = true) := by
  refine ⟨⟨?_, ?_⟩, ?_, ?_, ?_, ?_, ?_, ?_, ?_⟩
  · rcases hq : s.Queries.GetSensorByID id w.ext with ⟨res, e1⟩
    cases res with
    | error err => rw [CheckSensorExists_error s id w err e1 hq, World.since_append]
    | ok row => rw [CheckSensorExists_ok s id w row e1 hq, World.since_append]
  · rcases hq : s.Queries.GetImageByID id w.ext with ⟨res, e1⟩
    cases res with
    | error err => rw [CheckImageExists_error s id w err e1 hq, World.since_append]
    | ok row => rw [CheckImageExists_ok s id w row e1 hq, World.since_append]
  · intro row e1 hq
    rw [CheckSensorExists_ok s id w row e1 hq]
  · intro row e1 hq
    rw [CheckImageExists_ok s id w row e1 hq]
  · intro err e1 hq his
    rw [CheckSensorExists_error s id w err e1 hq, if_pos his]
  · intro err e1 hq his
    rw [CheckImageExists_error s id w err e1 hq, if_pos his]
  · intro err e1 hq his
    rw [CheckSensorExists_error s id w err e1 hq, if_neg (by simp [his])]
  · intro err e1 hq his
    rw [CheckImageExists_error s id w err e1 hq, if_neg (by simp [his])]
  · exact ⟨errors.Is_self _, fun err msg h => errors.Is_Wrap err _ msg h⟩

/-- C11 at concrete inputs: a stored sensor passes the check; a missing image
fails it with `ErrImageNotFound` on a Store tagged `Sensor`; a lookup failing
with a wrapped no-rows yields `ErrSensorNotFound` on a Store tagged `Image`; a
lookup failing with a closed connection yields `ErrConnectionClosed`. -/
theorem checkExists_present_witness :
    (memdb.newStore.CheckSensorExists (some 7) (World.fresh memdb.stocked)).1 = none ∧
    ((memdb.newStore.SetEntityType Sensor).CheckImageExists (some 42)
      (World.fresh memdb.stocked)).1 = some storage.ErrImageNotFound ∧
    (((NewStore (memdb.failingLookups (errors.Wrap pgx.ErrNoRows "get sensor"))
        memdb.conn).SetEntityType Image).CheckSensorExists (some 7)
      (World.fresh memdb.stocked)).1 = some storage.ErrSensorNotFound ∧
    ((NewStore (memdb.failingLookups sql.ErrConnDone) memdb.conn).CheckSensorExists (some 7)
      (World.fresh memdb.stocked)).1 = some storage.ErrConnectionClosed :=
  ⟨(checkExists_present memdb.newStore 7 (World.fresh memdb.stocked)).2.1
      memdb.sensor7 memdb.stocked rfl,
   (checkExists_present (memdb.newStore.SetEntityType Sensor) 42
      (World.fresh memdb.stocked)).2.2.2.2.1 pgx.ErrNoRows memdb.stocked rfl rfl,
   (checkExists_present
      ((NewStore (memdb.failingLookups (errors.Wrap pgx.ErrNoRows "get sensor"))
        memdb.conn).SetEntityType Image) 7
      (World.fresh memdb.stocked)).2.2.2.1 (errors.Wrap pgx.ErrNoRows "get sensor")
      memdb.stocked rfl rfl,
   (checkExists_present (NewStore (memdb.failingLookups sql.ErrConnDone) memdb.conn) 7
      (World.fresh memdb.stocked)).2.2.2.2.2.1 sql.ErrConnDone memdb.stocked rfl rfl⟩

end store

namespace store

variable {σ : Type}

/-- The default branch of `HandleError`: an error that is none of the six
executor signals is wrapped. -/
theorem HandleError_default (s : Store σ) (e : GoError)
    (h1 : e ≠ pgx.ErrNoRows) (h2 : e ≠ pgx.ErrTooManyRows) (h3 : e ≠ pgx.ErrTxClosed)
    (h4 : e ≠ pgx.ErrTxCommitRollback) (h5 : e ≠ sql.ErrConnDone) :
    s.HandleError (some e) = some (errors.Wrap e "unknown error in postgres store") := by
  simp [Store.HandleError, h1, h2, h3, h4, h5]

/-- Outside the no-rows signal the tag plays no part in `HandleError`. -/
theorem HandleError_tag_independent (s s2 : Store σ) (err : Option GoError)
    (h : err ≠ some pgx.ErrNoRows) : s.HandleError err = s2.HandleError err := by
  cases err with
  | none => rfl
  | some e =>
    have he : e ≠ pgx.ErrNoRows := fun hc => h (by rw [hc])
    simp [Store.HandleError, he]

/-! ### C12 -/

/-- C12, as the code has it: for a raw error other than no-rows the result of
`HandleError` does not depend on the Store; nil maps to nil, too-many-rows to
`ErrToManyRows`, transaction-closed to `ErrTxClosed`, commit-rollback to
`ErrTxCommitRollback`, connection-closed to `ErrConnectionClosed`; and every
error that is none of these signals maps to the unknown-error wrapper, which is
not nil and has the original error in its chain (`errors.Is` matches it). -/
theorem HandleError_table (s : Store σ) :
    (∀ (s2 : Store σ) (err : Option GoError), err ≠ some pgx.ErrNoRows →
      s.HandleError err = s2.HandleError err) ∧
    s.HandleError none = none ∧
    s.HandleError (some pgx.ErrTooManyRows) = some storage.ErrToManyRows ∧
    s.HandleError (some pgx.ErrTxClosed) = some storage.ErrTxClosed ∧
    s.HandleError (some pgx.ErrTxCommitRollback) = some storage.ErrTxCommitRollback ∧
    s.HandleError (some sql.ErrConnDone) = some storage.ErrConnectionClosed ∧
    (∀ e, e ≠ pgx.ErrNoRows → e ≠ pgx.ErrTooManyRows → e ≠ pgx.ErrTxClosed →
      e ≠ pgx.ErrTxCommitRollback → e ≠ sql.ErrConnDone →
      s.HandleError (some e) = some (errors.Wrap e "unknown error in postgres store") ∧
      s.HandleError (some e) ≠ none ∧
      errors.Is (errors.Wrap e "unknown error in postgres store") e = true) := by
  refine ⟨fun s2 err h => HandleError_tag_independent s s2 err h, rfl, ?_, ?_, ?_, ?_, ?_⟩
  · simp [Store.HandleError, pgx.ErrTooManyRows, pgx.ErrNoRows]
  · simp [Store.HandleError, pgx.ErrTooManyRows, pgx.ErrNoRows, pgx.ErrTxClosed]
  · simp [Store.HandleError, pgx.ErrTooManyRows, pgx.ErrNoRows, pgx.ErrTxClosed,
      pgx.ErrTxCommitRollback]
  · simp [Store.HandleError, pgx.ErrTooManyRows, pgx.ErrNoRows, pgx.ErrTxClosed,
      pgx.ErrTxCommitRollback, sql.ErrConnDone]
  · intro e h1 h2 h3 h4 h5
    refine ⟨HandleError_default s e h1 h2 h3 h4 h5, ?_,
      errors.Is_Wrap e e _ (errors.Is_self e)⟩
    rw [HandleError_default s e h1 h2 h3 h4 h5]
    simp

/-- C12 at concrete inputs: an error built at run time and a wrapped no-rows
are both wrapped as unknown errors, under any tag. -/
theorem HandleError_table_witness :
    (memdb.newStore.SetEntityType Sensor).HandleError
        (some (GoError.dynamic "connection refused")) =
      some (errors.Wrap (GoError.dynamic "connection refused")
        "unknown error in postgres store") ∧
    (memdb.newStore.SetEntityType Image).HandleError
        (some (errors.Wrap pgx.ErrNoRows "get sensor")) =
      some (errors.Wrap (errors.Wrap pgx.ErrNoRows "get sensor")
        "unknown error in postgres store") ∧
    (memdb.newStore.SetEntityType Image).HandleError (some sql.ErrConnDone) =
      memdb.newStore.HandleError (some sql.ErrConnDone) :=
  ⟨((HandleError_table (memdb.newStore.SetEntityType Sensor)).2.2.2.2.2.2
      (GoError.dynamic "connection refused")
      (by decide) (by decide) (by decide) (by decide) (by decide)).1,
   ((HandleError_table (memdb.newStore.SetEntityType Image)).2.2.2.2.2.2
      (errors.Wrap pgx.ErrNoRows "get sensor")
      (by decide) (by decide) (by decide) (by decide) (by decide)).1,
   (HandleError_table (memdb.newStore.SetEntityType Image)).1 memdb.newStore
      (some sql.ErrConnDone) (by decide)⟩

/-- C12 as stated fails: `pgx.ErrTxCommitRollback` is none of nil, no-rows,
too-many-rows, transaction-closed and connection-closed, yet `HandleError` does
not wrap it: it maps it to the package-level `ErrTxCommitRollback`, whose chain
does not hold the original error. -/
theorem HandleError_commitRollback_not_wrapped :
    pgx.ErrTxCommitRollback ≠ pgx.ErrNoRows ∧
    pgx.ErrTxCommitRollback ≠ pgx.ErrTooManyRows ∧
    pgx.ErrTxCommitRollback ≠ pgx.ErrTxClosed ∧
    pgx.ErrTxCommitRollback ≠ sql.ErrConnDone ∧
    memdb.newStore.HandleError (some pgx.ErrTxCommitRollback)
      = some storage.ErrTxCommitRollback ∧
    memdb.newStore.HandleError (some pgx.ErrTxCommitRollback)
      ≠ some (errors.Wrap pgx.ErrTxCommitRollback "unknown error in postgres store") ∧
    errors.Is storage.ErrTxCommitRollback pgx.ErrTxCommitRollback = false := by
  refine ⟨by decide, by decide, by decide, by decide, rfl, by decide, by decide⟩

end store

namespace utils

/-! ### C13 -/

/-- C13: `ConvertNullableImage` returns no image exactly for a row whose
identifier is 0; for any other row it returns the image whose `ID`, `CreatedAt`,
`UpdatedAt` and `URL` are the row's identifier, created-at time, updated-at time
and url. -/
theorem ConvertNullableImage_nil_iff_zero (img : sqlc.Image) :
    (ConvertNullableImage img = none ↔ img.ID = 0) ∧
    (img.ID ≠ 0 →
      ConvertNullableImage img =
        some { ID := img.ID, CreatedAt := img.CreatedAt.Time,
               UpdatedAt := img.UpdatedAt.Time, URL := img.Url }) ∧
    (∀ image, ConvertNullableImage img = some image →
      image.ID = img.ID ∧ image.CreatedAt = img.CreatedAt.Time ∧
      image.UpdatedAt = img.UpdatedAt.Time ∧ image.URL = img.Url) := by
  by_cases h : img.ID = 0
  · simp [ConvertNullableImage, h]
  · refine ⟨by simp [ConvertNullableImage, h], fun _ => by simp [ConvertNullableImage, h], ?_⟩
    intro image himg
    simp [ConvertNullableImage, h] at himg
    rw [← himg]
    exact ⟨rfl, rfl, rfl, rfl⟩

/-- C13 at concrete inputs: the image row 9 is materialised, the zero-valued
row is not. -/
theorem ConvertNullableImage_nil_iff_zero_witness :
    ConvertNullableImage memdb.image9 =
      some { ID := 9, CreatedAt := ⟨100⟩, UpdatedAt := ⟨200⟩,
             URL := "https://example.org/9.png" } ∧
    ConvertNullableImage memdb.noImage = none :=
  ⟨(ConvertNullableImage_nil_iff_zero memdb.image9).2.1 (by decide),
   (ConvertNullableImage_nil_iff_zero memdb.noImage).1.mpr rfl⟩

end utils

namespace treecluster

variable {σ : Type}

namespace TreeClusterRepository

/-- With an absent region `updateEntity` panics, whatever the executor. -/
theorem updateEntity_absent_region (r : TreeClusterRepository σ) (tc : entities.TreeCluster)
    (w : World σ) (h : tc.Region = none) :
    r.updateEntity tc w = Except.error Panic.nilPointerDereference := by
  simp [updateEntity, h]

/-- With an existing tree cluster whose region is absent after the mutations,
`Update` panics after the fetch. -/
theorem Update_absent_region (r : TreeClusterRepository σ) (id : Int)
    (tcFn : List (entities.EntityFunc entities.TreeCluster)) (w : World σ)
    (tc0 : entities.TreeCluster) (e1 : σ)
    (hget : r.GetByID id w.ext = (Except.ok tc0, e1))
    (h : (tcFn.foldl (fun e fn => fn e) tc0).Region = none) :
    r.Update id tcFn w = Except.error Panic.nilPointerDereference := by
  simp [Update, World.call, hget, updateEntity, h]

/-! ### C14 -/

/-- C14, the code at the failing input: the tree cluster of the scenario is
stored under identifier 1 and has no region. `Update` on it, with no mutation
or with a mutation of the address, fetches the entity and then panics with a
nil pointer dereference in `updateEntity`, which takes the address of
`tc.Region.ID` without a nil check; no update write is reached. `createEntity`
checks the region and passes an absent region id for the same entity. -/
theorem Update_absent_region_panics :
    (memdb.clusterRepo.GetByID 1 memdb.withMainStreet).1 = Except.ok memdb.mainStreetStored ∧
    memdb.mainStreetStored.Region = none ∧
    memdb.clusterRepo.Update 1 [] (World.fresh memdb.withMainStreet)
      = Except.error Panic.nilPointerDereference ∧
    memdb.clusterRepo.Update 1 [fun tc => { tc with Address := "Main St 2" }]
      (World.fresh memdb.withMainStreet) = Except.error Panic.nilPointerDereference ∧
    memdb.clusterRepo.updateEntity memdb.mainStreetStored (World.fresh memdb.withMainStreet)
      = Except.error Panic.nilPointerDereference ∧
    (createParams memdb.mainStreetStored).RegionID = none ∧
    (memdb.clusterRepo.createEntity memdb.mainStreetStored (World.fresh memdb.empty)).1
      = (1, none) := by
  refine ⟨rfl, rfl, rfl, rfl, rfl, rfl, rfl⟩

end TreeClusterRepository

end treecluster

namespace store

variable {σ : Type}

/-- The tag of a Store is the one the last `SetEntityType` wrote, or the
initial tag when there was none. -/
theorem afterSetting_entityType (s : Store σ) (tags : List EntityType) :
    (s.afterSetting tags).entityType = tags.getLast?.getD s.entityType := by
  induction tags using List.reverseRecOn with
  | nil => rfl
  | append_singleton init t _ =>
    simp [Store.afterSetting, List.foldl_append, Store.SetEntityType]

/-! ### C15 -/

/-- C15, as the code has it: on a Store on which earlier operations have set
the tags `tags` (oldest first), an operation that classifies a no-rows error
without setting the tag itself receives the not-found error selected by the tag
set last (by the initial tag when none was set): the dedicated error of that
kind when it is image, sensor, flowerbed or treecluster, and the generic
`ErrEntityNotFound` exactly when it is none of these. -/
theorem HandleError_noRows_uses_last_tag (s : Store σ) (tags : List EntityType) :
    (s.afterSetting tags).entityType = tags.getLast?.getD s.entityType ∧
    (tags.getLast?.getD s.entityType = Image →
      (s.afterSetting tags).HandleError (some pgx.ErrNoRows)
        = some storage.ErrImageNotFound) ∧
    (tags.getLast?.getD s.entityType = Sensor →
      (s.afterSetting tags).HandleError (some pgx.ErrNoRows)
        = some storage.ErrSensorNotFound) ∧
    (tags.getLast?.getD s.entityType = Flowerbed →
      (s.afterSetting tags).HandleError (some pgx.ErrNoRows)
        = some storage.ErrFlowerbedNotFound) ∧
    (tags.getLast?.getD s.entityType = TreeCluster →
      (s.afterSetting tags).HandleError (some pgx.ErrNoRows)
        = some storage.ErrTreeClusterNotFound) ∧
    ((s.afterSetting tags).HandleError (some pgx.ErrNoRows) = some storage.ErrEntityNotFound ↔
      (tags.getLast?.getD s.entityType ≠ Image ∧
       tags.getLast?.getD s.entityType ≠ Sensor ∧
       tags.getLast?.getD s.entityType ≠ Flowerbed ∧
       tags.getLast?.getD s.entityType ≠ TreeCluster)) := by
  have ht := afterSetting_entityType s tags
  rw [HandleError_noRows_eq, ht]
  refine ⟨rfl, ?_, ?_, ?_, ?_, ?_⟩
  · intro h; simp [h]
  · intro h; simp [h, Image, Sensor]
  · intro h; simp [h, Image, Sensor, Flowerbed]
  · intro h; simp [h, Image, Sensor, Flowerbed, TreeCluster]
  · constructor
    · intro h
      refine ⟨?_, ?_, ?_, ?_⟩ <;> intro hc <;> revert h <;>
        simp [hc, Image, Sensor, Flowerbed, TreeCluster, storage.ErrImageNotFound,
          storage.ErrSensorNotFound, storage.ErrFlowerbedNotFound,
          storage.ErrTreeClusterNotFound, storage.ErrEntityNotFound]
    · rintro ⟨h1, h2, h3, h4⟩
      simp [h1, h2, h3, h4]

/-- C15 at concrete inputs: on the Store as `NewStore` leaves it the generic
error is returned; after the tags image and then sensor were set, the sensor
error is. -/
theorem HandleError_noRows_uses_last_tag_witness :
    (memdb.newStore.afterSetting []).HandleError (some pgx.ErrNoRows)
      = some storage.ErrEntityNotFound ∧
    (memdb.newStore.afterSetting [Image, Sensor]).HandleError (some pgx.ErrNoRows)
      = some storage.ErrSensorNotFound :=
  ⟨(HandleError_noRows_uses_last_tag memdb.newStore []).2.2.2.2.2.mpr
      ⟨by decide, by decide, by decide, by decide⟩,
   (HandleError_noRows_uses_last_tag memdb.newStore [Image, Sensor]).2.2.1 rfl⟩

/-- C15 as stated fails: an earlier operation has left the tag `Image` on the
shared Store. A sensor lookup of the missing identifier 42 does not set the
tag and ends in no-rows; classified by that Store, the error is the dedicated
`ErrImageNotFound` of the earlier kind, not the generic `ErrEntityNotFound`. -/
theorem stale_tag_yields_dedicated_error :
    (memdb.sensorRepo Image).store.entityType
      = (memdb.newStore.afterSetting [Image]).entityType ∧
    ((memdb.sensorRepo Image).GetByID 42 (World.fresh memdb.empty)).1
      = (none, some pgx.ErrNoRows) ∧
    (memdb.sensorRepo Image).store.HandleError
        ((memdb.sensorRepo Image).GetByID 42 (World.fresh memdb.empty)).1.2
      = some storage.ErrImageNotFound ∧
    (memdb.newStore.afterSetting [Image]).HandleError (some pgx.ErrNoRows)
      = some storage.ErrImageNotFound ∧
    storage.ErrImageNotFound ≠ storage.ErrEntityNotFound := by
  refine ⟨rfl, rfl, rfl, rfl, by decide⟩

end store

end GreenEcolution
